import Mathlib

/-!
Shallow embedding of the movie-review Solana program (`src/processor.rs`):
the record state and its binary codec, the two instruction handlers
`add_movie_review` and `update_movie_review`, and theorems settling the
specification claims about them.

Byte buffers are `List Nat` with each element a byte value; public keys are
their 32-byte representations (`List Nat` of length 32).  Program-derived
address computation (`Pubkey::find_program_address`) is a cryptographic hash
search performed by the SDK, so the handlers take it as an explicit function
parameter; theorems quantify over it and witnesses instantiate it concretely.
-/

set_option maxRecDepth 1000000

deriving instance DecidableEq for Except

abbrev Bytes := List Nat

abbrev Pubkey := List Nat

/-- Custom errors of the program (`error.rs`'s `ReviewError`, as used by
`processor.rs`). -/
inductive ReviewError where
  | UninitializedAccount
  | InvalidPDA
  | InvalidRating
  | InvalidDataLength
  deriving DecidableEq, Repr

/-- The error outcomes a handler can surface.  `Panicked` models the Rust
panic raised by the `.unwrap()` on `try_from_slice_unchecked` when the account
buffer fails to deserialize (in the BPF runtime a panic aborts the
transaction). `BorshIoError` models the io error returned when
`account_data.serialize(...)` runs out of space in the 1000-byte buffer. -/
inductive ProgramError where
  | MissingRequiredSignature
  | InvalidArgument
  | AccountAlreadyInitialized
  | IllegalOwner
  | BorshIoError
  | Custom (e : ReviewError)
  | Panicked
  deriving DecidableEq, Repr

/-- `state.rs`'s `MovieAccountState` (fields in borsh serialization order, as
given by the spec's storage-layout table). -/
structure MovieAccountState where
  is_initialized : Bool
  reviewer : Pubkey
  title : Bytes
  rating : Nat
  description : Bytes
  deriving DecidableEq, Repr

/-- Typed decode failures of the record codec. -/
inductive DecodeError where
  | truncated
  | invalidBool
  deriving DecidableEq, Repr

def encodeU32LE (n : Nat) : Bytes :=
  [n % 256, n / 256 % 256, n / 65536 % 256, n / 16777216 % 256]

/-- Read a little-endian `u32` from the front of a buffer. -/
def readU32LE (buf : Bytes) : Except DecodeError (Nat × Bytes) :=
  match buf with
  | b0 :: b1 :: b2 :: b3 :: rest =>
      .ok (b0 + 256 * b1 + 65536 * b2 + 16777216 * b3, rest)
  | _ => .error .truncated

/-- Read one byte. -/
def readU8 (buf : Bytes) : Except DecodeError (Nat × Bytes) :=
  match buf with
  | b :: rest => .ok (b, rest)
  | _ => .error .truncated

/-- Read a borsh `bool` (one byte, `0` or `1`; anything else is a decode
error). -/
def readBool (buf : Bytes) : Except DecodeError (Bool × Bytes) :=
  match buf with
  | 0 :: rest => .ok (false, rest)
  | 1 :: rest => .ok (true, rest)
  | _ :: _ => .error .invalidBool
  | [] => .error .truncated

/-- Take exactly `n` bytes from the front of a buffer. -/
def takeN (n : Nat) (buf : Bytes) : Except DecodeError (Bytes × Bytes) :=
  if n ≤ buf.length then .ok (buf.take n, buf.drop n) else .error .truncated

/-- Modelled from the spec: the borsh serialization of `MovieAccountState`
(`state.rs` is not part of the given sources; the spec's record-storage-layout
table fixes the layout: 1-byte flag, 32-byte owner identity, length-prefixed
title, 1-byte rating, length-prefixed description).  Text fields are kept as
raw byte sequences. -/
def encodeState (r : MovieAccountState) : Bytes :=
  (if r.is_initialized then [1] else [0]) ++ r.reviewer
    ++ encodeU32LE r.title.length ++ r.title
    ++ [r.rating]
    ++ encodeU32LE r.description.length ++ r.description

/-- Modelled from the spec: borsh deserialization of `MovieAccountState` as
invoked through `try_from_slice_unchecked` (`state.rs` is not part of the
given sources).  Reads the fields of the layout table in order and ignores
any trailing bytes; a buffer too short for a declared length is a typed
`truncated` failure, never an out-of-bounds read. -/
def decodeState (buf : Bytes) : Except DecodeError MovieAccountState := do
  let (flag, buf) ← readBool buf
  let (reviewer, buf) ← takeN 32 buf
  let (tlen, buf) ← readU32LE buf
  let (title, buf) ← takeN tlen buf
  let (rating, buf) ← readU8 buf
  let (dlen, buf) ← readU32LE buf
  let (descr, _) ← takeN dlen buf
  pure ⟨flag, reviewer, title, rating, descr⟩

/-- An account as the handler sees it: identity, signer flag, controlling
program, and the current data buffer. -/
structure AccountInfo where
  key : Pubkey
  is_signer : Bool
  owner : Pubkey
  data : Bytes
  deriving DecidableEq, Repr

/-- The type of `Pubkey::find_program_address` specialized to the seed shape
`[initializer.key, title]` used by this program: it maps the program id, the
initializer key and the title bytes to the derived address and bump seed. -/
abbrev Fpa := Pubkey → Pubkey → Bytes → Pubkey × Nat

/-- `account_data.serialize(&mut &mut pda_account.data.borrow_mut()[..])`:
write the encoding over the front of the buffer, keeping trailing bytes.  If
the encoding does not fit, borsh's slice writer fails after writing the bytes
that do fit, so the error case leaves a partial write. -/
def serializeInto (r : MovieAccountState) (buf : Bytes) :
    Except ProgramError Unit × Bytes :=
  let e := encodeState r
  if e.length ≤ buf.length then (.ok (), e ++ buf.drop e.length)
  else (.error .BorshIoError, e.take buf.length)

/-- Result of a create invocation: the returned `ProgramResult`, the final
bytes of the review account's data buffer, and whether the handler reached
the `invoke_signed(create_account, ...)` call. -/
structure CreateOutcome where
  result : Except ProgramError Unit
  storage : Bytes
  allocInvoked : Bool
  deriving DecidableEq, Repr

/-- `add_movie_review` from `src/processor.rs`.  The outcome of the
`invoke_signed(system_instruction::create_account ...)` collaborator call is
passed in as `alloc`: on success it yields the freshly allocated data buffer
of the PDA account, on failure the error the host surfaced. -/
def add_movie_review (fpa : Fpa) (alloc : Except ProgramError Bytes)
    (program_id : Pubkey) (initializer pda_account : AccountInfo)
    (title : Bytes) (rating : Nat) (description : Bytes) : CreateOutcome :=
  if !initializer.is_signer then
    ⟨.error .MissingRequiredSignature, pda_account.data, false⟩
  else
    let pda := (fpa program_id initializer.key title).1
    if pda ≠ pda_account.key then
      ⟨.error .InvalidArgument, pda_account.data, false⟩
    else if rating > 5 ∨ rating < 1 then
      ⟨.error (.Custom .InvalidRating), pda_account.data, false⟩
    else
      let total_len : Nat := 1 + 1 + (4 + title.length) + (4 + description.length)
      if total_len > 1000 then
        ⟨.error (.Custom .InvalidDataLength), pda_account.data, false⟩
      else
        match alloc with
        | .error e => ⟨.error e, pda_account.data, true⟩
        | .ok buf =>
          match decodeState buf with
          | .error _ => ⟨.error .Panicked, buf, true⟩
          | .ok account_data =>
            if account_data.is_initialized then
              ⟨.error .AccountAlreadyInitialized, buf, true⟩
            else
              let account_data : MovieAccountState :=
                { reviewer := initializer.key
                  title := title
                  rating := rating
                  description := description
                  is_initialized := true }
              let w := serializeInto account_data buf
              ⟨w.1, w.2, true⟩

/-- Result of an update invocation: the returned `ProgramResult` and the
final bytes of the review account's data buffer. -/
structure UpdateOutcome where
  result : Except ProgramError Unit
  storage : Bytes
  deriving DecidableEq, Repr

/-- `update_movie_review` from `src/processor.rs`.  Note the handler receives
a `title` argument from the instruction payload but never reads it: the PDA is
re-derived from the *stored* title. -/
def update_movie_review (fpa : Fpa) (program_id : Pubkey)
    (initializer pda_account : AccountInfo)
    (title : Bytes) (rating : Nat) (description : Bytes) : UpdateOutcome :=
  if pda_account.owner ≠ program_id then
    ⟨.error .IllegalOwner, pda_account.data⟩
  else if !initializer.is_signer then
    ⟨.error .MissingRequiredSignature, pda_account.data⟩
  else
    match decodeState pda_account.data with
    | .error _ => ⟨.error .Panicked, pda_account.data⟩
    | .ok account_data =>
      let pda := (fpa program_id initializer.key account_data.title).1
      if pda ≠ pda_account.key then
        ⟨.error (.Custom .InvalidPDA), pda_account.data⟩
      else if !account_data.is_initialized then
        ⟨.error (.Custom .UninitializedAccount), pda_account.data⟩
      else if rating > 5 ∨ rating < 1 then
        ⟨.error (.Custom .InvalidRating), pda_account.data⟩
      else
        let update_len : Nat :=
          1 + 1 + (4 + description.length) + account_data.title.length
        if update_len > 1000 then
          ⟨.error (.Custom .InvalidDataLength), pda_account.data⟩
        else
          let account_data : MovieAccountState :=
            { account_data with rating := rating, description := description }
          let w := serializeInto account_data pda_account.data
          ⟨w.1, w.2⟩

/-- Modelled from the spec: the spec's error taxonomy names the
address-mismatch failure `InvalidDerivedAddress`; the source surfaces it as
the builtin `InvalidArgument` on the create path and as the custom
`InvalidPDA` code on the update path. -/
def isInvalidDerivedAddress : ProgramError → Bool
  | .InvalidArgument => true
  | .Custom .InvalidPDA => true
  | _ => false

/-! ### Concrete fixtures used to instantiate theorems on closed inputs -/

/-- A concrete 32-byte signer identity. -/
def key1 : Pubkey := List.replicate 32 1

/-- A concrete derivation function: every seed set derives to address `[2]`
with bump 255. -/
def fpaEx : Fpa := fun _ _ _ => ([2], 255)

/-- A freshly allocated, all-zero 1000-byte account buffer. -/
def zeroBuf : Bytes := List.replicate 1000 0

/-- A concrete signing initializer account. -/
def initEx : AccountInfo := ⟨key1, true, [0], []⟩

/-- A concrete review account at the derived address `[2]`, controlled by
program `[7]`, with an all-zero data buffer. -/
def pdaEx : AccountInfo := ⟨[2], false, [7], zeroBuf⟩

/-- A stored record with a 500-byte title and empty description. -/
def storedRec : MovieAccountState := ⟨true, key1, List.replicate 500 97, 3, []⟩

/-- `storedRec` serialized into a 1000-byte account buffer. -/
def storedBuf : Bytes := encodeState storedRec ++ List.replicate 458 0

/-- The review account holding `storedRec`. -/
def pdaStored : AccountInfo := ⟨[2], false, [7], storedBuf⟩

/-- A small stored record (1-byte title, 1-byte description). -/
def smallRec : MovieAccountState := ⟨true, key1, [97], 3, [98]⟩

/-- `smallRec` serialized into a 1000-byte account buffer. -/
def smallBuf : Bytes := encodeState smallRec ++ List.replicate 956 0

/-- The review account holding `smallRec`. -/
def pdaSmall : AccountInfo := ⟨[2], false, [7], smallBuf⟩

/-! ### Codec lemmas -/

lemma readBool_flag (b : Bool) (rest : Bytes) :
    readBool ((if b then [1] else [0]) ++ rest) = .ok (b, rest) := by
  cases b <;> rfl

lemma takeN_append (n : Nat) (l rest : Bytes) (h : l.length = n) :
    takeN n (l ++ rest) = .ok (l, rest) := by
  simp [takeN, List.length_append, h.symm, List.take_left' h, List.drop_left' h]

lemma readU32LE_encodeU32LE (n : Nat) (rest : Bytes) (h : n < 4294967296) :
    readU32LE (encodeU32LE n ++ rest) = .ok (n, rest) := by
  simp only [encodeU32LE, List.cons_append, List.nil_append, readU32LE]
  congr 1
  ext
  · omega
  · rfl

lemma readU8_cons (b : Nat) (rest : Bytes) : readU8 (b :: rest) = .ok (b, rest) := rfl

lemma ok_bind {α β : Type} (a : α) (f : α → Except DecodeError β) :
    (Except.ok a >>= f) = f a := rfl

/-- Round trip of the record codec: decoding an encoded record, with any
trailing bytes, recovers the record exactly, provided the owner identity is
32 bytes and the text lengths fit the 4-byte length prefixes. -/
lemma decodeState_encodeState (r : MovieAccountState) (rest : Bytes)
    (h32 : r.reviewer.length = 32)
    (hT : r.title.length < 4294967296)
    (hD : r.description.length < 4294967296) :
    decodeState (encodeState r ++ rest) = .ok r := by
  obtain ⟨init, rev, t, rat, d⟩ := r
  dsimp only at h32 hT hD
  simp only [encodeState, List.append_assoc, decodeState]
  rw [readBool_flag, ok_bind]; dsimp only
  rw [takeN_append 32 rev _ h32, ok_bind]; dsimp only
  rw [readU32LE_encodeU32LE _ _ hT, ok_bind]; dsimp only
  rw [takeN_append t.length t _ rfl, ok_bind]; dsimp only
  rw [List.cons_append, readU8_cons, ok_bind]
  dsimp only [List.nil_append]
  rw [readU32LE_encodeU32LE _ _ hD, ok_bind]; dsimp only
  rw [takeN_append d.length d _ rfl, ok_bind]
  rfl

/-- The length of an encoded record: flag, 32-byte owner, length-prefixed
title, rating byte, length-prefixed description. -/
lemma encodeState_length (r : MovieAccountState) (h32 : r.reviewer.length = 32) :
    (encodeState r).length = 42 + r.title.length + r.description.length := by
  cases hb : r.is_initialized <;>
    simp [encodeState, encodeU32LE, hb, h32] <;> omega

lemma bind_eq_ok {α β : Type} {x : Except DecodeError α}
    {f : α → Except DecodeError β} {b : β} (h : (x >>= f) = .ok b) :
    ∃ a, x = .ok a ∧ f a = .ok b := by
  cases x with
  | error e => exact absurd h (by simp [Bind.bind, Except.bind])
  | ok a => exact ⟨a, rfl, h⟩

lemma readBool_ok {buf : Bytes} {b : Bool} {rest : Bytes}
    (h : readBool buf = .ok (b, rest)) : buf.length = rest.length + 1 := by
  unfold readBool at h
  split at h <;> simp_all

lemma readU8_ok {buf : Bytes} {b : Nat} {rest : Bytes}
    (h : readU8 buf = .ok (b, rest)) : buf.length = rest.length + 1 := by
  unfold readU8 at h
  split at h <;> simp_all

lemma readU32LE_ok {buf : Bytes} {n : Nat} {rest : Bytes}
    (h : readU32LE buf = .ok (n, rest)) : buf.length = rest.length + 4 := by
  unfold readU32LE at h
  split at h <;> simp_all

lemma takeN_ok {n : Nat} {buf l rest : Bytes}
    (h : takeN n buf = .ok (l, rest)) :
    l.length = n ∧ buf.length = rest.length + n := by
  unfold takeN at h
  split at h
  · obtain ⟨rfl, rfl⟩ : buf.take n = l ∧ buf.drop n = rest := by
      simpa using h
    constructor <;> simp <;> omega
  · exact absurd h (by simp)

/-- A successfully decoded record has a 32-byte owner identity, and decoding
consumes at least 42 bytes plus the title and description. -/
lemma decodeState_ok_shape {buf : Bytes} {r : MovieAccountState}
    (h : decodeState buf = .ok r) :
    r.reviewer.length = 32 ∧
      42 + r.title.length + r.description.length ≤ buf.length := by
  unfold decodeState at h
  obtain ⟨⟨flag, buf1⟩, h1, h⟩ := bind_eq_ok h
  obtain ⟨⟨rev, buf2⟩, h2, h⟩ := bind_eq_ok h
  obtain ⟨⟨tlen, buf3⟩, h3, h⟩ := bind_eq_ok h
  obtain ⟨⟨t, buf4⟩, h4, h⟩ := bind_eq_ok h
  obtain ⟨⟨rat, buf5⟩, h5, h⟩ := bind_eq_ok h
  obtain ⟨⟨dlen, buf6⟩, h6, h⟩ := bind_eq_ok h
  obtain ⟨⟨dsc, buf7⟩, h7, h⟩ := bind_eq_ok h
  obtain rfl : (⟨flag, rev, t, rat, dsc⟩ : MovieAccountState) = r := by
    simpa [pure, Except.pure] using h
  have l1 := readBool_ok h1
  have l2 := takeN_ok h2
  have l3 := readU32LE_ok h3
  have l4 := takeN_ok h4
  have l5 := readU8_ok h5
  have l6 := readU32LE_ok h6
  have l7 := takeN_ok h7
  refine ⟨l2.1, ?_⟩
  simp only []
  omega

/-! ### Claim theorems -/

/-- Claim C8: the update operation's outcome (returned result and final
storage bytes) is independent of the title submitted in the instruction
payload: two update invocations differing only in the submitted title are
identical, because the handler re-derives the PDA from the stored title and
never reads the submitted one. -/
theorem C8_update_ignores_submitted_title (fpa : Fpa) (program_id : Pubkey)
    (initializer pda_account : AccountInfo) (t1 t2 : Bytes) (rating : Nat)
    (description : Bytes) :
    update_movie_review fpa program_id initializer pda_account t1 rating description =
      update_movie_review fpa program_id initializer pda_account t2 rating description := rfl

/-- Claim C9: record decoding is total and validated: every buffer either
decodes to a record or yields a typed decode error (there is no third
outcome), a buffer shorter than the 42 fixed layout bytes never decodes
successfully, and the all-zero 1000-byte buffer decodes to an uninitialized
record with zero owner bytes, empty title and empty description. -/
theorem C9_decode_total_validated :
    (∀ buf : Bytes, (∃ r, decodeState buf = .ok r) ∨
        (∃ e, decodeState buf = .error e)) ∧
    (∀ buf : Bytes, buf.length < 42 → ¬ ∃ r, decodeState buf = .ok r) ∧
    decodeState zeroBuf = .ok ⟨false, List.replicate 32 0, [], 0, []⟩ := by
  refine ⟨?_, ?_, ?_⟩
  · intro buf
    cases h : decodeState buf with
    | ok r => exact .inl ⟨r, rfl⟩
    | error e => exact .inr ⟨e, rfl⟩
  · rintro buf hlen ⟨r, hr⟩
    have := decodeState_ok_shape hr
    omega
  · decide

/-- Witness for C9 at the concrete undersized buffer `[]`. -/
theorem C9_witness : ¬ ∃ r, decodeState [] = .ok r :=
  C9_decode_total_validated.2.1 [] (by decide)

/-- Claim C1: a create operation with a signing initializer, the provided
storage address equal to the derived address for (initializer, title), a
rating in [1,5], an admissible size (the encoded record fits the 1000-byte
allocation), a successful allocation, and an allocated buffer decoding to an
uninitialized record, succeeds; afterwards the storage decodes to a record
with owner = the signer's key, the given title, rating and description, and
`initialized = true`. -/
theorem C1_create_success (fpa : Fpa) (program_id : Pubkey)
    (initializer pda_account : AccountInfo) (title : Bytes) (rating : Nat)
    (description : Bytes) (buf : Bytes) (r₀ : MovieAccountState)
    (hsig : initializer.is_signer = true)
    (hkey : initializer.key.length = 32)
    (hpda : (fpa program_id initializer.key title).1 = pda_account.key)
    (hr1 : 1 ≤ rating) (hr5 : rating ≤ 5)
    (hdec : decodeState buf = .ok r₀)
    (hinit : r₀.is_initialized = false)
    (hbuf : buf.length = 1000)
    (hsize : 42 + title.length + description.length ≤ 1000) :
    (add_movie_review fpa (.ok buf) program_id initializer pda_account
        title rating description).result = .ok () ∧
    decodeState (add_movie_review fpa (.ok buf) program_id initializer
        pda_account title rating description).storage =
      .ok ⟨true, initializer.key, title, rating, description⟩ := by
  have henc : (encodeState ⟨true, initializer.key, title, rating, description⟩).length
      = 42 + title.length + description.length := encodeState_length _ hkey
  have hfits : (encodeState ⟨true, initializer.key, title, rating, description⟩).length
      ≤ buf.length := by omega
  simp only [add_movie_review, hsig, Bool.not_true, Bool.false_eq_true, if_false,
    hpda, ne_eq, not_true_eq_false, ite_false, hdec, hinit, serializeInto]
  rw [if_neg (by omega : ¬(rating > 5 ∨ rating < 1))]
  rw [if_neg (by omega :
    ¬(1 + 1 + (4 + title.length) + (4 + description.length) > 1000))]
  dsimp only
  rw [if_pos hfits]
  refine ⟨rfl, ?_⟩
  exact decodeState_encodeState _ _ hkey (by dsimp only; omega) (by dsimp only; omega)

/-- Witness for C1: a concrete create on a fresh all-zero buffer succeeds and
stores the expected record. -/
theorem C1_witness :
    (add_movie_review fpaEx (.ok zeroBuf) [7] initEx pdaEx
        [97] 3 [98, 99]).result = .ok () ∧
    decodeState (add_movie_review fpaEx (.ok zeroBuf) [7] initEx pdaEx
        [97] 3 [98, 99]).storage = .ok ⟨true, key1, [97], 3, [98, 99]⟩ :=
  C1_create_success fpaEx [7] initEx pdaEx [97] 3 [98, 99] zeroBuf
    ⟨false, List.replicate 32 0, [], 0, []⟩
    (by decide) (by decide) (by decide) (by decide) (by decide)
    (by decide) (by decide) (by decide) (by decide)

/-- Claim C6: a create operation that passes the signer, address, rating and
size checks but whose allocated storage already decodes to an initialized
record fails with `AccountAlreadyInitialized` and writes nothing: the final
storage is exactly the buffer the allocation step produced. -/
theorem C6_create_already_initialized (fpa : Fpa) (program_id : Pubkey)
    (initializer pda_account : AccountInfo) (title : Bytes) (rating : Nat)
    (description : Bytes) (buf : Bytes) (r₀ : MovieAccountState)
    (hsig : initializer.is_signer = true)
    (hpda : (fpa program_id initializer.key title).1 = pda_account.key)
    (hr1 : 1 ≤ rating) (hr5 : rating ≤ 5)
    (hsize : 1 + 1 + (4 + title.length) + (4 + description.length) ≤ 1000)
    (hdec : decodeState buf = .ok r₀)
    (hinit : r₀.is_initialized = true) :
    (add_movie_review fpa (.ok buf) program_id initializer pda_account
        title rating description).result = .error .AccountAlreadyInitialized ∧
    (add_movie_review fpa (.ok buf) program_id initializer pda_account
        title rating description).storage = buf := by
  simp only [add_movie_review, hsig, Bool.not_true, Bool.false_eq_true, if_false,
    hpda, ne_eq, not_true_eq_false, ite_false, hdec, hinit]
  rw [if_neg (by omega : ¬(rating > 5 ∨ rating < 1))]
  rw [if_neg (by omega :
    ¬(1 + 1 + (4 + title.length) + (4 + description.length) > 1000))]
  exact ⟨rfl, rfl⟩

/-- Witness for C6: a create whose target buffer already holds the record an
identical earlier create stored fails with `AccountAlreadyInitialized` and
leaves the buffer as allocated. -/
theorem C6_witness :
    (add_movie_review fpaEx (.ok smallBuf) [7] initEx pdaEx
        [97] 3 [98]).result = .error .AccountAlreadyInitialized ∧
    (add_movie_review fpaEx (.ok smallBuf) [7] initEx pdaEx
        [97] 3 [98]).storage = smallBuf :=
  C6_create_already_initialized fpaEx [7] initEx pdaEx [97] 3 [98] smallBuf
    smallRec (by decide) (by decide) (by decide) (by decide) (by decide)
    (by decide) (by decide)

/-- Claim C7: on both paths the operation fails with `InvalidRating` exactly
when the rating is outside [1,5] (given that the checks preceding the rating
check pass), ratings inside [1,5] never produce `InvalidRating` (provided the
host allocation outcome is not itself that error), and on the create path an
invalid rating is rejected before the allocation call is reached. -/
theorem C7_rating_bounds :
    (∀ (fpa : Fpa) (alloc : Except ProgramError Bytes) (pid : Pubkey)
        (init pda : AccountInfo) (t : Bytes) (rat : Nat) (d : Bytes),
      init.is_signer = true →
      (fpa pid init.key t).1 = pda.key →
      (rat > 5 ∨ rat < 1) →
      (add_movie_review fpa alloc pid init pda t rat d).result =
          .error (.Custom .InvalidRating) ∧
        (add_movie_review fpa alloc pid init pda t rat d).allocInvoked = false) ∧
    (∀ (fpa : Fpa) (alloc : Except ProgramError Bytes) (pid : Pubkey)
        (init pda : AccountInfo) (t : Bytes) (rat : Nat) (d : Bytes),
      1 ≤ rat → rat ≤ 5 →
      alloc ≠ .error (.Custom .InvalidRating) →
      (add_movie_review fpa alloc pid init pda t rat d).result ≠
        .error (.Custom .InvalidRating)) ∧
    (∀ (fpa : Fpa) (pid : Pubkey) (init pda : AccountInfo) (t : Bytes)
        (rat : Nat) (d : Bytes) (r₀ : MovieAccountState),
      pda.owner = pid →
      init.is_signer = true →
      decodeState pda.data = .ok r₀ →
      (fpa pid init.key r₀.title).1 = pda.key →
      r₀.is_initialized = true →
      (rat > 5 ∨ rat < 1) →
      (update_movie_review fpa pid init pda t rat d).result =
        .error (.Custom .InvalidRating)) ∧
    (∀ (fpa : Fpa) (pid : Pubkey) (init pda : AccountInfo) (t : Bytes)
        (rat : Nat) (d : Bytes),
      1 ≤ rat → rat ≤ 5 →
      (update_movie_review fpa pid init pda t rat d).result ≠
        .error (.Custom .InvalidRating)) := by
  refine ⟨?_, ?_, ?_, ?_⟩
  · intro fpa alloc pid init pda t rat d hsig hpda hrat
    simp only [add_movie_review, hsig, Bool.not_true, Bool.false_eq_true,
      if_false, hpda, ne_eq, not_true_eq_false, ite_false]
    rw [if_pos hrat]
    exact ⟨rfl, rfl⟩
  · intro fpa alloc pid init pda t rat d hr1 hr5 halloc
    simp only [add_movie_review]
    split
    · simp
    split
    · simp
    split
    · omega
    split
    · simp
    split
    · dsimp only
      intro hcon
      simp only [Except.error.injEq] at hcon
      exact halloc (by rw [hcon])
    · split
      · simp
      · split
        · simp
        · simp only [serializeInto]
          split <;> simp
  · intro fpa pid init pda t rat d r₀ howner hsig hdec hpda hinit hrat
    simp only [update_movie_review, howner, ne_eq, not_true_eq_false, ite_false,
      hsig, Bool.not_true, Bool.false_eq_true, if_false, hdec]
    simp only [hpda, not_true_eq_false, ite_false, hinit, Bool.not_true,
      Bool.false_eq_true, if_false]
    rw [if_pos hrat]
  · intro fpa pid init pda t rat d hr1 hr5
    simp only [update_movie_review]
    split
    · simp
    split
    · simp
    split
    · simp
    · split
      · simp
      split
      · simp
      split
      · omega
      split
      · simp
      · simp only [serializeInto]
        split <;> simp

/-- Witness for C7 at Scenario D's concrete input: a create with rating 7
fails `InvalidRating` with no allocation side effect. -/
theorem C7_witness :
    (add_movie_review fpaEx (.ok zeroBuf) [7] initEx pdaEx [97] 7 [98]).result =
        .error (.Custom .InvalidRating) ∧
      (add_movie_review fpaEx (.ok zeroBuf) [7] initEx pdaEx [97] 7
          [98]).allocInvoked = false :=
  C7_rating_bounds.1 fpaEx (.ok zeroBuf) [7] initEx pdaEx [97] 7 [98]
    (by decide) (by decide) (by decide)

/-- Claim C5: on both paths a provided storage address that differs from the
recomputed derived address makes the operation fail with the spec's
`InvalidDerivedAddress` error kind (surfaced as `InvalidArgument` on create
and the custom `InvalidPDA` code on update), and an update attempted by a
signer different from the stored owner, whose derived address therefore
differs from the account's address, fails with `MissingRequiredSignature` or
`InvalidDerivedAddress`. -/
theorem C5_derived_address_checks :
    (∀ (fpa : Fpa) (alloc : Except ProgramError Bytes) (pid : Pubkey)
        (init pda : AccountInfo) (t : Bytes) (rat : Nat) (d : Bytes),
      init.is_signer = true →
      (fpa pid init.key t).1 ≠ pda.key →
      ∃ e, (add_movie_review fpa alloc pid init pda t rat d).result = .error e ∧
        isInvalidDerivedAddress e = true) ∧
    (∀ (fpa : Fpa) (pid : Pubkey) (init pda : AccountInfo) (t : Bytes)
        (rat : Nat) (d : Bytes) (r₀ : MovieAccountState),
      pda.owner = pid →
      init.is_signer = true →
      decodeState pda.data = .ok r₀ →
      (fpa pid init.key r₀.title).1 ≠ pda.key →
      ∃ e, (update_movie_review fpa pid init pda t rat d).result = .error e ∧
        isInvalidDerivedAddress e = true) ∧
    (∀ (fpa : Fpa) (pid : Pubkey) (init pda : AccountInfo) (t : Bytes)
        (rat : Nat) (d : Bytes) (r₀ : MovieAccountState),
      pda.owner = pid →
      decodeState pda.data = .ok r₀ →
      init.key ≠ r₀.reviewer →
      (fpa pid init.key r₀.title).1 ≠ pda.key →
      (update_movie_review fpa pid init pda t rat d).result =
          .error .MissingRequiredSignature ∨
        ∃ e, (update_movie_review fpa pid init pda t rat d).result = .error e ∧
          isInvalidDerivedAddress e = true) := by
  refine ⟨?_, ?_, ?_⟩
  · intro fpa alloc pid init pda t rat d hsig hne
    refine ⟨.InvalidArgument, ?_, rfl⟩
    simp only [add_movie_review, hsig, Bool.not_true, Bool.false_eq_true, if_false]
    rw [if_pos hne]
  · intro fpa pid init pda t rat d r₀ howner hsig hdec hne
    refine ⟨.Custom .InvalidPDA, ?_, rfl⟩
    simp only [update_movie_review, howner, ne_eq, not_true_eq_false, ite_false,
      hsig, Bool.not_true, Bool.false_eq_true, if_false, hdec]
    rw [if_pos hne]
  · intro fpa pid init pda t rat d r₀ howner hdec hkey hne
    cases hsig : init.is_signer with
    | false =>
      left
      simp only [update_movie_review, howner, ne_eq, not_true_eq_false,
        ite_false, hsig, Bool.not_false, if_true]
    | true =>
      right
      refine ⟨.Custom .InvalidPDA, ?_, rfl⟩
      simp only [update_movie_review, howner, ne_eq, not_true_eq_false,
        ite_false, hsig, Bool.not_true, Bool.false_eq_true, if_false, hdec]
      rw [if_pos hne]

/-- Witness for C5: a concrete create whose provided storage address `[3]`
differs from the derived address `[2]` fails with the create path's
realization of `InvalidDerivedAddress`. -/
theorem C5_witness :
    ∃ e, (add_movie_review fpaEx (.ok zeroBuf) [7] initEx
        ⟨[3], false, [7], zeroBuf⟩ [97] 3 [98]).result = .error e ∧
      isInvalidDerivedAddress e = true :=
  C5_derived_address_checks.1 fpaEx (.ok zeroBuf) [7] initEx
    ⟨[3], false, [7], zeroBuf⟩ [97] 3 [98] (by decide) (by decide)

/-- Claim C2: a successful update changes only the rating and the
description: whatever the submitted payload, the final storage decodes to a
record whose owner, title and initialized flag are those decoded from the
storage before the update, with only `rating` and `description` replaced by
the operation's values. -/
theorem C2_update_frame (fpa : Fpa) (pid : Pubkey) (init pda : AccountInfo)
    (t : Bytes) (rat : Nat) (d : Bytes) (r₀ : MovieAccountState) (st : Bytes)
    (hdec : decodeState pda.data = .ok r₀)
    (hrun : update_movie_review fpa pid init pda t rat d = ⟨.ok (), st⟩) :
    decodeState st = .ok ⟨r₀.is_initialized, r₀.reviewer, r₀.title, rat, d⟩ := by
  unfold update_movie_review at hrun
  rw [hdec] at hrun
  dsimp only at hrun
  split at hrun
  · exact absurd hrun (by simp)
  split at hrun
  · exact absurd hrun (by simp)
  split at hrun
  · exact absurd hrun (by simp)
  split at hrun
  · exact absurd hrun (by simp)
  split at hrun
  · exact absurd hrun (by simp)
  split at hrun
  · exact absurd hrun (by simp)
  rename_i hsz
  unfold serializeInto at hrun
  dsimp only at hrun
  split at hrun
  · have h2 := congrArg UpdateOutcome.storage hrun
    dsimp only at h2
    subst h2
    have hshape := decodeState_ok_shape hdec
    exact decodeState_encodeState
      ⟨r₀.is_initialized, r₀.reviewer, r₀.title, rat, d⟩ _
      hshape.1 (by dsimp only; omega) (by dsimp only; omega)
  · exact absurd (congrArg UpdateOutcome.result hrun) (by simp)

/-- Witness for C2: the concrete update of Scenario B's shape succeeds and
leaves owner, title and the initialized flag unchanged while storing the new
rating and description. -/
theorem C2_witness :
    decodeState (update_movie_review fpaEx [7] initEx pdaSmall
        [] 5 [99, 100]).storage = .ok ⟨true, key1, [97], 5, [99, 100]⟩ :=
  C2_update_frame fpaEx [7] initEx pdaSmall [] 5 [99, 100] smallRec
    (update_movie_review fpaEx [7] initEx pdaSmall [] 5 [99, 100]).storage
    (by decide) (by decide)

/-- Claim C10: module-level atomicity of update on the enumerated error
kinds: whenever the update handler returns an owner-authority, signature,
address, initialization, rating or size error, the account's storage bytes
are unchanged, because each of these checks precedes the single
serialize-to-storage write. -/
theorem C10_update_error_atomicity (fpa : Fpa) (pid : Pubkey)
    (init pda : AccountInfo) (t : Bytes) (rat : Nat) (d : Bytes)
    (e : ProgramError) (st : Bytes)
    (hrun : update_movie_review fpa pid init pda t rat d = ⟨.error e, st⟩)
    (hkind : e = .IllegalOwner ∨ e = .MissingRequiredSignature ∨
      e = .Custom .InvalidPDA ∨ e = .Custom .UninitializedAccount ∨
      e = .Custom .InvalidRating ∨ e = .Custom .InvalidDataLength) :
    st = pda.data := by
  unfold update_movie_review at hrun
  dsimp only at hrun
  split at hrun
  · exact (congrArg UpdateOutcome.storage hrun).symm
  split at hrun
  · exact (congrArg UpdateOutcome.storage hrun).symm
  split at hrun
  · exact (congrArg UpdateOutcome.storage hrun).symm
  split at hrun
  · exact (congrArg UpdateOutcome.storage hrun).symm
  split at hrun
  · exact (congrArg UpdateOutcome.storage hrun).symm
  split at hrun
  · exact (congrArg UpdateOutcome.storage hrun).symm
  split at hrun
  · exact (congrArg UpdateOutcome.storage hrun).symm
  unfold serializeInto at hrun
  dsimp only at hrun
  split at hrun
  · exact absurd (congrArg UpdateOutcome.result hrun) (by simp)
  · have he := congrArg UpdateOutcome.result hrun
    dsimp only at he
    simp only [Except.error.injEq] at he
    rcases hkind with h | h | h | h | h | h <;> simp_all

/-- Witness for C10 at a concrete failing update: the account is controlled
by program `[7]` but the handler runs as program `[9]`, so the update fails
`IllegalOwner` and the storage is untouched. -/
theorem C10_witness : smallBuf = pdaSmall.data :=
  C10_update_error_atomicity fpaEx [9] initEx pdaSmall [] 5 [99]
    .IllegalOwner smallBuf (by decide) (by decide)

/-- Counterexample to claim C3: with an empty title and a 959-byte
description the record's full serialized size (owner identity included) is
1001 bytes — one byte over 1000 — yet the create operation does not fail
with `DataTooLarge`: its size check counts only `1+1+(4+len(title))+
(4+len(description))` = 969 bytes, so the check passes and the operation
instead dies at the final serialize with a borsh io error. -/
theorem C3_counterexample :
    (encodeState ⟨true, key1, [], 3, List.replicate 959 98⟩).length = 1001 ∧
    (add_movie_review fpaEx (.ok zeroBuf) [7] initEx pdaEx [] 3
        (List.replicate 959 98)).result ≠ .error (.Custom .InvalidDataLength) ∧
    (add_movie_review fpaEx (.ok zeroBuf) [7] initEx pdaEx [] 3
        (List.replicate 959 98)).result = .error .BorshIoError := by
  refine ⟨by decide, by decide, by decide⟩

/-- Amended claim C3: on the create path, once the signer, address and
rating checks pass, the operation fails with `DataTooLarge` exactly when
`1 + 1 + (4 + len(title)) + (4 + len(description))` — a formula that does
not count the 32-byte owner identity — exceeds 1000 bytes; at or below that
bound the create never reports `DataTooLarge` (provided the host allocation
outcome is not itself that error), and when it does fail `DataTooLarge` the
allocation call has not been reached. -/
theorem C3_create_size_check (fpa : Fpa) (alloc : Except ProgramError Bytes)
    (pid : Pubkey) (init pda : AccountInfo) (t : Bytes) (rat : Nat)
    (d : Bytes)
    (hsig : init.is_signer = true)
    (hpda : (fpa pid init.key t).1 = pda.key)
    (hr1 : 1 ≤ rat) (hr5 : rat ≤ 5) :
    (1 + 1 + (4 + t.length) + (4 + d.length) > 1000 →
      (add_movie_review fpa alloc pid init pda t rat d).result =
          .error (.Custom .InvalidDataLength) ∧
        (add_movie_review fpa alloc pid init pda t rat d).allocInvoked = false) ∧
    (1 + 1 + (4 + t.length) + (4 + d.length) ≤ 1000 →
      alloc ≠ .error (.Custom .InvalidDataLength) →
      (add_movie_review fpa alloc pid init pda t rat d).result ≠
        .error (.Custom .InvalidDataLength)) := by
  constructor
  · intro hbig
    simp only [add_movie_review, hsig, Bool.not_true, Bool.false_eq_true,
      if_false, hpda, ne_eq, not_true_eq_false, ite_false]
    rw [if_neg (by omega : ¬(rat > 5 ∨ rat < 1))]
    rw [if_pos hbig]
    exact ⟨rfl, rfl⟩
  · intro hfit halloc
    simp only [add_movie_review]
    split
    · simp
    split
    · simp
    split
    · simp
    split
    · omega
    split
    · dsimp only
      intro hcon
      simp only [Except.error.injEq] at hcon
      exact halloc (by rw [hcon])
    · split
      · simp
      · split
        · simp
        · simp only [serializeInto]
          split <;> simp

/-- Witness for the amended C3: a create whose title is 991 bytes puts the
checked formula at 1001 bytes and fails `DataTooLarge` before allocation. -/
theorem C3_witness :
    (add_movie_review fpaEx (.ok zeroBuf) [7] initEx pdaEx
        (List.replicate 991 97) 3 []).result =
        .error (.Custom .InvalidDataLength) ∧
      (add_movie_review fpaEx (.ok zeroBuf) [7] initEx pdaEx
          (List.replicate 991 97) 3 []).allocInvoked = false :=
  (C3_create_size_check fpaEx (.ok zeroBuf) [7] initEx pdaEx
      (List.replicate 991 97) 3 [] (by decide) (by decide) (by decide)
      (by decide)).1 (by decide)

/-- Claim C4, evaluated against the code: with a stored 500-byte title and a
new 491-byte description, the total-size formula of the data-model invariant,
`1 + 1 + (4 + len(storedTitle)) + (4 + len(newDescription))`, is 1001 > 1000,
so the claim requires the update to fail `DataTooLarge`; the handler instead
computes `1 + 1 + (4 + len(newDescription)) + len(storedTitle)` = 997 — the
4-byte title length prefix is missing — so the size check passes and the
update fails only at the final serialize, with a borsh io error. -/
theorem C4_update_size_check_gap :
    1 + 1 + (4 + (List.replicate 500 97 : Bytes).length) +
        (4 + (List.replicate 491 98 : Bytes).length) = 1001 ∧
    decodeState storedBuf = .ok storedRec ∧
    (update_movie_review fpaEx [7] initEx pdaStored [] 4
        (List.replicate 491 98)).result ≠ .error (.Custom .InvalidDataLength) ∧
    (update_movie_review fpaEx [7] initEx pdaStored [] 4
        (List.replicate 491 98)).result = .error .BorshIoError := by
  refine ⟨by decide, by decide, by decide, by decide⟩
